import Mathlib

/-!
# Verification of the Square customer-sync engine (`app.py`)

A shallow embedding of the synchronization and token-lifecycle engine of the
repository's Flask application.  Python datetimes are modelled as integers
(seconds); a timestamp field read from the external API or from a sheet cell
is modelled as an already-classified parse result (`TimeField`), since the
engine only ever branches on "missing / unparseable / parsed value".
The Google-Sheets tokens worksheet is a list of `TokenRow`; per-merchant
customer worksheets are lists of string rows, exactly the rows
`save_customer_data` writes.  The external Square API is an abstract
environment: a cursor-keyed paginated customer source, a fallback source and
an invoice-search response.  All definitions are direct translations of the
corresponding Python functions in `app.py`.
-/

namespace SquareSync

/-- A timestamp-valued field, as the Python code observes it after
`datetime.fromisoformat(s.replace(Z, +00:00))`: either falsy (absent or the
empty string, so parsing is never attempted), present but unparseable
(`fromisoformat` raises), or parsed to a point in time.  Time is measured in
seconds; `raw` is the original string, which the code writes through verbatim
into sheet cells. -/
inductive TimeField where
  | missing : TimeField
  | unparseable (raw : String) : TimeField
  | parsed (raw : String) (time : Int) : TimeField
deriving DecidableEq

/-- The raw cell/JSON string of the field (`customer.get(k, '')`). -/
def TimeField.raw : TimeField → String
  | .missing => ""
  | .unparseable r => r
  | .parsed r _ => r

/-- The parse result: `some t` exactly when the string parsed. -/
def TimeField.time : TimeField → Option Int
  | .missing => none
  | .unparseable _ => none
  | .parsed _ t => some t

/-- `(now - t).days` of a Python `timedelta`: floor division of the elapsed
seconds by 86400 (Python normalizes timedeltas with floor semantics). -/
def daysBetween (now t : Int) : Int := (now - t).fdiv 86400

/-- `datetime.now().isoformat()` as an opaque injective serialization of the
clock reading; writes of the current time into sheet cells use it. -/
def isoTimestamp (t : Int) : String := toString t

/-- A customer address (`customer.get('address', {})`), every component
defaulted to the empty string when absent. -/
structure Address where
  address_line_1 : String
  address_line_2 : String
  locality : String
  administrative_district_level_1 : String
  postal_code : String
  country : String
deriving DecidableEq

/-- A customer object as returned by the Square customers API (no
`latest_invoice` key yet; that key is only ever attached by the merge step in
`fetch_all_customers`).  Plain string fields are modelled with the
`.get(k, '')` default already applied. -/
structure Customer where
  id : String
  given_name : String
  family_name : String
  company_name : String
  nickname : String
  email_address : String
  phone_number : String
  address : Address
  created_at : TimeField
  updated_at : TimeField
  birthday : String
  note : String
  reference_id : String
  group_ids : List String
  segment_ids : List String
  /-- `json.dumps(preferences)` when the preferences dict is truthy. -/
  preferences : Option String
  version : String
deriving DecidableEq

/-- The client-side date filter of `fetch_all_customers` (lines 431-457):
include when `created_at` parses and `(now - created).days <= days_back`,
otherwise when `updated_at` parses and `(now - updated).days <= days_back`;
a missing or unparseable timestamp contributes nothing (the bare `except:
pass`). -/
def includeCustomer (now daysBack : Int) (c : Customer) : Bool :=
  let incCreated : Bool :=
    match c.created_at with
    | .parsed _ t => decide (daysBetween now t ≤ daysBack)
    | _ => false
  if incCreated then true
  else
    match c.updated_at with
    | .parsed _ t => decide (daysBetween now t ≤ daysBack)
    | _ => false

/-- Spec-side reading of "the timestamp falls within the window": the field
parses and the code's window test `(now - t).days <= days_back` holds. -/
def withinWindow (now daysBack : Int) (f : TimeField) : Bool :=
  match f with
  | .parsed _ t => decide (daysBetween now t ≤ daysBack)
  | _ => false

/-- Spec-side date filter: keep a record iff either `created_at` or
`updated_at` falls within the window. -/
def includeCustomerSpec (now daysBack : Int) (c : Customer) : Bool :=
  withinWindow now daysBack c.created_at || withinWindow now daysBack c.updated_at

/-- The date filter of `fetch_customers_fallback` (lines 512-538): same
either/or shape, but compares `created_date >= cutoff_date` with
`cutoff = now - days_back` days. -/
def includeCustomerFallback (now daysBack : Int) (c : Customer) : Bool :=
  let incCreated : Bool :=
    match c.created_at with
    | .parsed _ t => decide (now - daysBack * 86400 ≤ t)
    | _ => false
  if incCreated then true
  else
    match c.updated_at with
    | .parsed _ t => decide (now - daysBack * 86400 ≤ t)
    | _ => false

/-- One entry of an invoice's `payment_requests` list; `tipping_enabled_in`
records whether the key `tipping_enabled` is present in the dict (the code
tests membership, not the value). -/
structure PaymentRequest where
  due_date : String
  tipping_enabled_in : Bool
deriving DecidableEq

/-- An invoice object from the invoice-search response.
`primary_recipient_customer_id` is
`invoice.get('primary_recipient', {}).get('customer_id')` (absent keys give
`none`).  `order_total` models `invoice.get('order', {}).get('total_money',
{})`: `none` for a falsy (empty/absent) dict, `some a` for a truthy dict whose
`amount`, coerced with `str`, is `a`. -/
structure Invoice where
  id : String
  primary_recipient_customer_id : Option String
  payment_requests : List PaymentRequest
  status : String
  order_total : Option String
  created_at : String
  updated_at : String
deriving DecidableEq

/-- The per-customer dict `fetch_customer_invoices` builds for an invoice
(lines 360-384). -/
structure InvoiceLinkage where
  id : String
  sale_or_service_date : String
  due_date : String
  invoice_status : String
  order_total : Option String
  created_at : String
  updated_at : String
deriving DecidableEq

/-- Build the linkage dict from one invoice, exactly as lines 361-384:
`due_date` comes from the first payment request when the list is truthy, and
`sale_or_service_date` is the invoice's `created_at` only when that first
payment request contains the key `tipping_enabled`. -/
def buildLinkage (inv : Invoice) : InvoiceLinkage :=
  let dueDate : String :=
    match inv.payment_requests with
    | [] => ""
    | p :: _ => p.due_date
  let saleDate : String :=
    match inv.payment_requests with
    | [] => ""
    | p :: _ => if p.tipping_enabled_in then inv.created_at else ""
  { id := inv.id
    sale_or_service_date := saleDate
    due_date := dueDate
    invoice_status := inv.status
    order_total := inv.order_total
    created_at := inv.created_at
    updated_at := inv.updated_at }

/-- Result of the single POST to `/v2/invoices/search`. -/
inductive InvResult where
  | ok (invoices : List Invoice) : InvResult
  | httpError (status : Nat) : InvResult
  | exn : InvResult

/-- The loop of `fetch_customer_invoices` over the invoice list (lines
355-384): for each invoice, resolve the primary recipient's customer id; if
it is among the requested ids and not yet a key of the accumulating dict,
insert the linkage (first match wins).  The insertion-ordered dict is an
association list with appends. -/
def invLoop (customerIds : List String) :
    List Invoice → List (String × InvoiceLinkage) → List (String × InvoiceLinkage)
  | [], acc => acc
  | inv :: rest, acc =>
    match inv.primary_recipient_customer_id with
    | none => invLoop customerIds rest acc
    | some cid =>
      if customerIds.contains cid && (acc.lookup cid).isNone then
        invLoop customerIds rest (acc ++ [(cid, buildLinkage inv)])
      else
        invLoop customerIds rest acc

/-- `fetch_customer_invoices` (lines 319-392): empty id set short-circuits to
an empty dict; a non-200 response or a raised exception also yields the empty
dict (the function logs and returns what it accumulated, which is nothing,
since the single search request precedes any insertion). -/
def fetchCustomerInvoices (customerIds : List String) (resp : InvResult) :
    List (String × InvoiceLinkage) :=
  if customerIds.isEmpty then []
  else
    match resp with
    | .ok invoices => invLoop customerIds invoices []
    | .httpError _ => []
    | .exn => []

/-- A customer after the merge step of `fetch_all_customers`:
the API customer plus the optional `latest_invoice` key. -/
structure SyncedCustomer where
  base : Customer
  latest_invoice : Option InvoiceLinkage
deriving DecidableEq

/-- The invoice merge of `fetch_all_customers` (lines 473-483): when the
fetched list is truthy, collect the truthy customer ids, fetch the invoice
dict, and attach `latest_invoice` to each customer whose id is a key. -/
def mergeInvoices (resp : InvResult) (customers : List Customer) :
    List SyncedCustomer :=
  if customers.isEmpty then []
  else
    let ids := (customers.map (fun c => c.id)).filter (fun i => !(i == ""))
    let invMap := fetchCustomerInvoices ids resp
    customers.map (fun c => ⟨c, invMap.lookup c.id⟩)

/-- One page of a paginated search response: the record list and the optional
continuation cursor from the response body. -/
structure CustPage where
  customers : List Customer
  cursor : Option String

/-- Result of one paginated HTTP request: a parsed 200 response, a non-200
status, or a raised transport exception. -/
inductive ReqResult where
  | ok (page : CustPage) : ReqResult
  | httpError (status : Nat) : ReqResult
  | exn : ReqResult

/-- Python truthiness of the cursor value (`if not cursor: break`): absent or
the empty string is falsy. -/
def cursorTruthy : Option String → Bool
  | none => false
  | some s => !(s == "")

/-- Outcome of the main pagination loop of `fetch_all_customers` (lines
420-471). `done` is reached by `break` (no cursor, or a request exception);
`toFallback` models the `return fetch_customers_fallback(...)` taken on any
non-200 response, which discards everything accumulated so far and skips the
invoice merge; `outOfFuel` is the model's marker for a source that never
stops handing out cursors (the Python loop would not terminate). -/
inductive FetchOutcome where
  | done (acc : List Customer) (requests : Nat) : FetchOutcome
  | toFallback (requests : Nat) : FetchOutcome
  | outOfFuel (acc : List Customer) (requests : Nat) : FetchOutcome

/-- The cursor-following loop of `fetch_all_customers`: request the source at
the current cursor, filter the page client-side, append, and continue while
the response carries a truthy cursor.  `requests` counts customer-search
requests issued. -/
def fetchLoopGo (source : Option String → ReqResult) (keep : Customer → Bool) :
    Nat → Option String → List Customer → Nat → FetchOutcome
  | 0, _, acc, reqs => .outOfFuel acc reqs
  | fuel + 1, cursor, acc, reqs =>
    match source cursor with
    | .ok page =>
      let acc' := acc ++ page.customers.filter keep
      if cursorTruthy page.cursor then
        fetchLoopGo source keep fuel page.cursor acc' (reqs + 1)
      else
        .done acc' (reqs + 1)
    | .httpError _ => .toFallback (reqs + 1)
    | .exn => .done acc (reqs + 1)

/-- The cursor loop of `fetch_customers_fallback` (lines 500-551): same
cursor discipline, but both a non-200 response and an exception `break`,
keeping what was accumulated. -/
def fallbackLoopGo (source : Option String → ReqResult) (keep : Customer → Bool) :
    Nat → Option String → List Customer → Nat → List Customer × Nat
  | 0, _, acc, reqs => (acc, reqs)
  | fuel + 1, cursor, acc, reqs =>
    match source cursor with
    | .ok page =>
      let acc' := acc ++ page.customers.filter keep
      if cursorTruthy page.cursor then
        fallbackLoopGo source keep fuel page.cursor acc' (reqs + 1)
      else
        (acc', reqs + 1)
    | .httpError _ => (acc, reqs + 1)
    | .exn => (acc, reqs + 1)

/-- The external Square API as one merchant observes it: the
`/v2/customers/search` paginated source, the `/v2/customers` fallback source,
and the single `/v2/invoices/search` response.  Responses are fixed data —
the "no change in the external data" reading of the spec. -/
structure MerchantEnv where
  pages : Option String → ReqResult
  fallbackPages : Option String → ReqResult
  invoiceResp : InvResult

/-- `fetch_all_customers` (lines 393-485): run the cursor loop from no
cursor; on the fallback path run `fetch_customers_fallback` (whose result
gets no invoice merge — the early `return` skips lines 473-483); otherwise
merge the invoice dict over the accumulated customers.  Returns the customer
list and the number of customer-endpoint requests issued. -/
def fetchAllCustomers (env : MerchantEnv) (now daysBack : Int) (fuel : Nat) :
    List SyncedCustomer × Nat :=
  match fetchLoopGo env.pages (includeCustomer now daysBack) fuel none [] 0 with
  | .done cs reqs => (mergeInvoices env.invoiceResp cs, reqs)
  | .toFallback reqs =>
    let fb := fallbackLoopGo env.fallbackPages (includeCustomerFallback now daysBack)
      fuel none [] 0
    (fb.1.map (fun c => ⟨c, none⟩), reqs + fb.2)
  | .outOfFuel cs reqs => (mergeInvoices env.invoiceResp cs, reqs)

/-- A chained paginated source: `Chains source cur pages` says that starting
from cursor `cur` the source answers with exactly the 200-responses `pages`,
each non-final page carrying a truthy cursor that keys the next page, and the
final page carrying a falsy cursor. -/
inductive Chains (source : Option String → ReqResult) :
    Option String → List CustPage → Prop
  | last (cur : Option String) (p : CustPage) :
      source cur = .ok p → cursorTruthy p.cursor = false → Chains source cur [p]
  | cons (cur : Option String) (p : CustPage) (ps : List CustPage) :
      source cur = .ok p → cursorTruthy p.cursor = true →
      Chains source p.cursor ps → Chains source cur (p :: ps)

/-- A concrete three-page source: cursor `c1` on page 1, `c2` on page 2, no
cursor on page 3, any other cursor a transport error. -/
def threePageSource (p1 p2 p3 : List Customer) : Option String → ReqResult :=
  fun cur =>
    match cur with
    | none => .ok ⟨p1, some "c1"⟩
    | some "c1" => .ok ⟨p2, some "c2"⟩
    | some "c2" => .ok ⟨p3, none⟩
    | some _ => .exn

/-- A concrete one-page source: a single cursorless page. -/
def onePageSource (p1 : List Customer) : Option String → ReqResult :=
  fun cur =>
    match cur with
    | none => .ok ⟨p1, none⟩
    | some _ => .exn

/-- One data row of the `tokens` worksheet, as `get_all_records()` yields it
(the header row is not part of the record list).  `last_sync` is a timestamp
cell and is modelled as a classified parse result; the empty cell written at
insertion is `.missing`. -/
structure TokenRow where
  merchant_id : String
  access_token : String
  refresh_token : String
  updated_at : String
  status : String
  merchant_name : String
  last_sync : TimeField
  total_customers : Nat
deriving DecidableEq

/-- Python `a or b` for an optional string `a`: `None` and the empty string
fall through to `b`. -/
def pyOr (a : Option String) (b : String) : String :=
  match a with
  | none => b
  | some s => if s == "" then b else s

/-- The in-place row update of `save_tokens_to_sheets` (lines 72-83): columns
B-H are overwritten — new tokens, fresh `updated_at`, status forced to
`active`, merchant name with Python-`or` fallback to the stored one — while
`last_sync` and `total_customers` are copied from the existing record.
Column A (`merchant_id`) is untouched. -/
def updatedTokenRow (r : TokenRow) (accessToken refreshToken : String)
    (merchantName : Option String) (nowIso : String) : TokenRow :=
  { merchant_id := r.merchant_id
    access_token := accessToken
    refresh_token := refreshToken
    updated_at := nowIso
    status := "active"
    merchant_name := pyOr merchantName r.merchant_name
    last_sync := r.last_sync
    total_customers := r.total_customers }

/-- The fresh row appended by `save_tokens_to_sheets` when no record matched
(lines 92-107): status `active`, empty `last_sync`, zero `total_customers`. -/
def newTokenRow (merchantId accessToken refreshToken : String)
    (merchantName : Option String) (nowIso : String) : TokenRow :=
  { merchant_id := merchantId
    access_token := accessToken
    refresh_token := refreshToken
    updated_at := nowIso
    status := "active"
    merchant_name := pyOr merchantName ""
    last_sync := .missing
    total_customers := 0 }

/-- The scan of `save_tokens_to_sheets` over the existing records (lines
64-89): update the first row whose `merchant_id` matches (any status) and
`break`; report whether a match was found. -/
def updateFirstMatch (merchantId accessToken refreshToken : String)
    (merchantName : Option String) (nowIso : String) :
    List TokenRow → List TokenRow × Bool
  | [] => ([], false)
  | r :: rs =>
    if r.merchant_id == merchantId then
      (updatedTokenRow r accessToken refreshToken merchantName nowIso :: rs, true)
    else
      let res := updateFirstMatch merchantId accessToken refreshToken merchantName nowIso rs
      (r :: res.1, res.2)

/-- `save_tokens_to_sheets` (lines 33-117) on the tokens worksheet: update
the first matching row in place, and append a fresh row only when no row with
this `merchant_id` exists. -/
def saveTokensToSheets (merchantId accessToken refreshToken : String)
    (merchantName : Option String) (nowIso : String)
    (rows : List TokenRow) : List TokenRow :=
  let res := updateFirstMatch merchantId accessToken refreshToken merchantName nowIso rows
  if res.2 then res.1
  else res.1 ++ [newTokenRow merchantId accessToken refreshToken merchantName nowIso]

/-- The arguments of one `save_tokens_to_sheets` call other than the merchant
id: tokens, optional display name, and the clock reading at call time. -/
structure SaveCall where
  access_token : String
  refresh_token : String
  merchant_name : Option String
  nowIso : String

/-- A sequence of `save_tokens_to_sheets` calls for one merchant id, applied
left to right. -/
def saveTokensSeq (merchantId : String) : List SaveCall → List TokenRow → List TokenRow
  | [], rows => rows
  | c :: cs, rows =>
    saveTokensSeq merchantId cs
      (saveTokensToSheets merchantId c.access_token c.refresh_token
        c.merchant_name c.nowIso rows)

/-- Number of rows bearing a given merchant id (any status). -/
def countRowsForId (merchantId : String) (rows : List TokenRow) : Nat :=
  (rows.filter (fun r => r.merchant_id == merchantId)).length

/-- Number of active rows bearing a given merchant id. -/
def countActiveRowsForId (merchantId : String) (rows : List TokenRow) : Nat :=
  (rows.filter (fun r => r.merchant_id == merchantId && r.status == "active")).length

/-- `get_tokens_from_sheets` (lines 152-176): the first record with this
merchant id and status `active`. -/
def getTokensFromSheets (merchantId : String) (rows : List TokenRow) : Option TokenRow :=
  rows.find? (fun r => r.merchant_id == merchantId && r.status == "active")

/-- `get_all_active_merchants` (lines 178-205): active records, deduplicated
by merchant id in first-seen order (`seen` only collects ids of rows that
were taken). -/
def getAllActiveMerchants : List TokenRow → List String → List TokenRow
  | [], _ => []
  | r :: rs, seen =>
    if r.status == "active" && !(seen.contains r.merchant_id) then
      r :: getAllActiveMerchants rs (r.merchant_id :: seen)
    else
      getAllActiveMerchants rs seen

/-- `update_sync_status` (lines 207-238): every row whose merchant id matches
gets `last_sync := now.isoformat()` and `total_customers := count` (the loop
has no break); the boolean reports whether any row matched. -/
def updateSyncStatus (merchantId : String) (now : Int) (count : Nat)
    (rows : List TokenRow) : List TokenRow × Bool :=
  (rows.map (fun r =>
      if r.merchant_id == merchantId then
        { r with last_sync := .parsed (isoTimestamp now) now, total_customers := count }
      else r),
   rows.any (fun r => r.merchant_id == merchantId))

/-- The header row `save_customer_data` writes (lines 259-266). -/
def customerHeaders : List String :=
  ["customer_id", "given_name", "family_name", "company_name", "nickname",
   "email_address", "phone_number", "address_line_1", "address_line_2",
   "locality", "administrative_district_level_1", "postal_code", "country",
   "created_at", "updated_at", "birthday", "note", "reference_id",
   "group_ids", "segment_ids", "preferences", "version", "sync_date",
   "latest_invoice_id", "sale_or_service_date", "due_date", "invoice_status",
   "invoice_amount"]

/-- The five trailing invoice columns of a data row (lines 298-303):
all empty when the customer carries no `latest_invoice` key (the default
`{}` is falsy everywhere), else the linkage fields, with the amount column
empty when `order_total` is falsy. -/
def invoiceCells (li : Option InvoiceLinkage) : List String :=
  match li with
  | none => ["", "", "", "", ""]
  | some inv =>
    [inv.id, inv.sale_or_service_date, inv.due_date, inv.invoice_status,
     match inv.order_total with
     | none => ""
     | some a => a]

/-- One data row of `save_customer_data` (lines 274-304): the 23 customer
columns — including `sync_date := datetime.now().isoformat()` — followed by
the five invoice columns. -/
def customerRow (now : Int) (sc : SyncedCustomer) : List String :=
  let c := sc.base
  [c.id, c.given_name, c.family_name, c.company_name, c.nickname,
   c.email_address, c.phone_number,
   c.address.address_line_1, c.address.address_line_2, c.address.locality,
   c.address.administrative_district_level_1, c.address.postal_code,
   c.address.country,
   c.created_at.raw, c.updated_at.raw, c.birthday, c.note, c.reference_id,
   String.intercalate ", " c.group_ids, String.intercalate ", " c.segment_ids,
   (match c.preferences with
    | none => ""
    | some p => p),
   c.version, isoTimestamp now] ++ invoiceCells sc.latest_invoice

/-- `save_customer_data` (lines 240-317): the merchant's worksheet is cleared
(or freshly created), the header plus data rows are assembled, and the batch
write happens only when there is at least one data row — with zero customers
the worksheet is left empty, not even the header is written back.  The prior
worksheet content is discarded unconditionally; the call reports success. -/
def saveCustomerData (now : Int) (customers : List SyncedCustomer)
    (prevSheet : List (List String)) : List (List String) × Bool :=
  let rows := customerHeaders :: customers.map (customerRow now)
  if rows.length > 1 then (rows, true) else ([], true)

/-- The persistent sheet state the sync engine reads and writes: the tokens
worksheet and one customer worksheet per merchant id. -/
structure SheetsState where
  tokens : List TokenRow
  customerSheets : String → List (List String)

/-- The external API as the whole app observes it: one `MerchantEnv` per
merchant id (requests authenticated with that merchant's token). -/
def AppEnv := String → MerchantEnv

/-- `sync_merchant_customers` (lines 556-578): load the active tokens row
(failing with `False` when absent), fetch and link the customers, full-replace
the merchant's customer worksheet, stamp the sync status, and report success.
The `if customers or customers == []` guard is vacuously true for the list
`fetch_all_customers` returns, so a legitimately empty fetch still persists
and still succeeds. -/
def syncMerchantCustomers (envOf : AppEnv) (now daysBack : Int) (fuel : Nat)
    (merchantId : String) (st : SheetsState) : Bool × SheetsState :=
  match getTokensFromSheets merchantId st.tokens with
  | none => (false, st)
  | some _ =>
    let fetched := fetchAllCustomers (envOf merchantId) now daysBack fuel
    let saved := saveCustomerData now fetched.1 (st.customerSheets merchantId)
    if saved.2 then
      let upd := updateSyncStatus merchantId now fetched.1.length st.tokens
      (true,
       { tokens := upd.1
         customerSheets := fun m => if m == merchantId then saved.1 else st.customerSheets m })
    else
      (false,
       { tokens := st.tokens
         customerSheets := fun m => if m == merchantId then saved.1 else st.customerSheets m })

/-- `should_sync_merchant` (lines 580-590): a falsy `last_sync` cell returns
`True`; a parse failure returns `True` (the bare `except`); otherwise sync
exactly when `(now - last_sync).days >= threshold_days`. -/
def shouldSyncMerchant (now : Int) (lastSync : TimeField) (thresholdDays : Int) : Bool :=
  match lastSync with
  | .missing => true
  | .unparseable _ => true
  | .parsed _ t => decide (thresholdDays ≤ daysBetween now t)

/-- `str(os.environ.get('CRON_TOKEN'))` inside the f-string: an unset
variable renders as the literal `None`. -/
def pyEnvStr : Option String → String
  | none => "None"
  | some s => s

/-- The expected Authorization header of `/api/cron-sync` (line 1232). -/
def cronExpected (cronToken : Option String) : String :=
  "Bearer " ++ pyEnvStr cronToken

/-- Terminal response of `/api/cron-sync`: the 401 rejection, or the 200
completion summary with the synced and total merchant counts. -/
inductive CronOutcome where
  | unauthorized : CronOutcome
  | completed (syncedCount : Nat) (totalMerchants : Nat) : CronOutcome
deriving DecidableEq

/-- HTTP status of the cron response: 401 for the rejection, 200 for the
completion summary. -/
def CronOutcome.httpStatus : CronOutcome → Nat
  | .unauthorized => 401
  | .completed _ _ => 200

/-- `cron_sync` (lines 1227-1266): reject with 401 unless the Authorization
header equals the expected bearer string exactly; otherwise enumerate the
active merchants once and sync each one whose `last_sync` passes
`should_sync_merchant` (threshold 3, history window 365 days), counting
successes. -/
def cronSync (envOf : AppEnv) (now : Int) (fuel : Nat)
    (cronToken : Option String) (authHeader : Option String)
    (st : SheetsState) : CronOutcome × SheetsState :=
  if authHeader = some (cronExpected cronToken) then
    let merchants := getAllActiveMerchants st.tokens []
    let final := merchants.foldl
      (fun (acc : Nat × SheetsState) m =>
        if shouldSyncMerchant now m.last_sync 3 then
          let res := syncMerchantCustomers envOf now 365 fuel m.merchant_id acc.2
          (if res.1 then acc.1 + 1 else acc.1, res.2)
        else acc)
      (0, st)
    (.completed final.1 merchants.length, final.2)
  else
    (.unauthorized, st)

/-! ## Concrete fixtures used by witnesses and counterexamples -/

/-- The all-empty address. -/
def blankAddress : Address := ⟨"", "", "", "", "", ""⟩

/-- A customer created at the epoch, which passes the 365-day window for any
`now` between the epoch and a year later. -/
def passCust : Customer :=
  { id := "X", given_name := "Ada", family_name := "L", company_name := ""
    nickname := "", email_address := "", phone_number := ""
    address := blankAddress
    created_at := .parsed "t0" 0, updated_at := .missing
    birthday := "", note := "", reference_id := ""
    group_ids := [], segment_ids := [], preferences := none, version := "1" }

/-! ## Theorems -/

/-- `updatedTokenRow` never touches column A. -/
theorem updatedTokenRow_merchant_id (r : TokenRow) (a b : String)
    (mn : Option String) (n : String) :
    (updatedTokenRow r a b mn n).merchant_id = r.merchant_id := rfl

/-- Counting matching rows, unfolded over a cons. -/
theorem countRows_cons (mid : String) (r : TokenRow) (rows : List TokenRow) :
    countRowsForId mid (r :: rows) =
      (if r.merchant_id == mid then 1 else 0) + countRowsForId mid rows := by
  by_cases h : r.merchant_id == mid <;>
    simp [countRowsForId, List.filter_cons, h, Nat.add_comm]

/-- Counting active matching rows, unfolded over a cons. -/
theorem countActive_cons (mid : String) (r : TokenRow) (rows : List TokenRow) :
    countActiveRowsForId mid (r :: rows) =
      (if r.merchant_id == mid && r.status == "active" then 1 else 0) +
        countActiveRowsForId mid rows := by
  by_cases h : (r.merchant_id == mid && r.status == "active") = true <;>
    simp [countActiveRowsForId, List.filter_cons, h, Nat.add_comm]

/-- There are never more active rows for an id than rows for that id. -/
theorem countActive_le_countRows (mid : String) (rows : List TokenRow) :
    countActiveRowsForId mid rows ≤ countRowsForId mid rows := by
  induction rows with
  | nil => exact Nat.le_refl 0
  | cons r rs ih =>
    rw [countRows_cons, countActive_cons]
    by_cases h1 : r.merchant_id == mid <;>
      by_cases h2 : r.status == "active" <;> simp [h1, h2] <;> omega

/-- The in-place scan preserves the number of rows for every id. -/
theorem updateFirstMatch_count (mid a b : String) (mn : Option String) (n : String)
    (key : String) (rows : List TokenRow) :
    countRowsForId key (updateFirstMatch mid a b mn n rows).1 = countRowsForId key rows := by
  induction rows with
  | nil => rfl
  | cons r rs ih =>
    unfold updateFirstMatch
    by_cases h : r.merchant_id == mid
    · simp only [h, if_pos]
      rw [countRows_cons, countRows_cons, updatedTokenRow_merchant_id]
    · simp only [h, Bool.false_eq_true, if_neg, not_false_eq_true]
      rw [countRows_cons, countRows_cons, ih]

/-- When the scan reports no match, no row bears the id. -/
theorem updateFirstMatch_not_found (mid a b : String) (mn : Option String) (n : String)
    (rows : List TokenRow)
    (h : (updateFirstMatch mid a b mn n rows).2 = false) :
    countRowsForId mid rows = 0 := by
  induction rows with
  | nil => rfl
  | cons r rs ih =>
    unfold updateFirstMatch at h
    by_cases hr : r.merchant_id == mid
    · simp [hr] at h
    · simp only [hr, Bool.false_eq_true, if_neg, not_false_eq_true] at h
      rw [countRows_cons, ih h]
      simp [hr]

/-- Row counts add over appends. -/
theorem countRows_append (mid : String) (l1 l2 : List TokenRow) :
    countRowsForId mid (l1 ++ l2) = countRowsForId mid l1 + countRowsForId mid l2 := by
  simp [countRowsForId, List.filter_append]

/-- One `save_tokens_to_sheets` call keeps the per-id row count at or below
one when it started there: an existing row is updated in place and a row is
appended only when none existed. -/
theorem saveTokens_count_le_one (mid a b : String) (mn : Option String) (n : String)
    (rows : List TokenRow) (h : countRowsForId mid rows ≤ 1) :
    countRowsForId mid (saveTokensToSheets mid a b mn n rows) ≤ 1 := by
  unfold saveTokensToSheets
  by_cases hf : (updateFirstMatch mid a b mn n rows).2
  · simp only [hf, if_pos]
    rw [updateFirstMatch_count]
    exact h
  · simp only [hf, Bool.false_eq_true, if_neg, not_false_eq_true]
    rw [countRows_append, updateFirstMatch_count,
      updateFirstMatch_not_found mid a b mn n rows (by simpa using hf)]
    simp [countRowsForId, newTokenRow, List.filter_cons]

/-- C1 (amended): starting from a store holding at most one row for the
merchant id — of any status, in particular any store this app itself builds —
every sequence of `save_tokens_to_sheets` calls for that id leaves at most
one row, hence at most one active row, for it: the first matching row is
updated in place and a fresh row is appended only when no row with that
`merchant_id` exists. -/
theorem saveTokens_upsert_at_most_one_active (mid : String) (calls : List SaveCall)
    (rows : List TokenRow) (h : countRowsForId mid rows ≤ 1) :
    countRowsForId mid (saveTokensSeq mid calls rows) ≤ 1 ∧
    countActiveRowsForId mid (saveTokensSeq mid calls rows) ≤ 1 := by
  have hmain : countRowsForId mid (saveTokensSeq mid calls rows) ≤ 1 := by
    induction calls generalizing rows with
    | nil => exact h
    | cons c cs ih =>
      exact ih _ (saveTokens_count_le_one mid c.access_token c.refresh_token
        c.merchant_name c.nowIso rows h)
  exact ⟨hmain, Nat.le_trans (countActive_le_countRows mid _) hmain⟩

/-- Arguments of a repeated upsert used by the C1 witness. -/
def saveCallW : SaveCall := ⟨"atok", "rtok", some "Shop", "2025-01-01T00:00:00"⟩

/-- C1 witness: two upserts into an empty store leave one row and one active
row. -/
theorem saveTokens_upsert_witness :
    countRowsForId "W" [] ≤ 1 ∧
    (countRowsForId "W" (saveTokensSeq "W" [saveCallW, saveCallW] []) ≤ 1 ∧
     countActiveRowsForId "W" (saveTokensSeq "W" [saveCallW, saveCallW] []) ≤ 1) :=
  ⟨by decide, saveTokens_upsert_at_most_one_active "W" [saveCallW, saveCallW] [] (by decide)⟩

/-- A store with a revoked row ahead of the active row for the same merchant:
one active row, two rows in total. -/
def dupStatusStore : List TokenRow :=
  [{ merchant_id := "M", access_token := "a0", refresh_token := "r0",
     updated_at := "u0", status := "revoked", merchant_name := "Shop",
     last_sync := .missing, total_customers := 0 },
   { merchant_id := "M", access_token := "a1", refresh_token := "r1",
     updated_at := "u1", status := "active", merchant_name := "Shop",
     last_sync := .missing, total_customers := 0 }]

/-- C1 counterexample: the scan keys on `merchant_id` alone and forces the
first matching row to `active`, so a store with at most one active row for
the id (but a revoked row ahead of it) ends up with two active rows after a
single upsert. -/
theorem saveTokens_upsert_counterexample :
    countActiveRowsForId "M" dupStatusStore ≤ 1 ∧
    ¬ countActiveRowsForId "M"
        (saveTokensToSheets "M" "a2" "r2" none "u2" dupStatusStore) ≤ 1 := by
  decide

/-- C3: the client-side date filter of `fetch_all_customers` keeps a record
exactly when its `created_at` parses and passes the window test, or its
`updated_at` parses and passes it; a record with both timestamps outside the
window, or both unparseable, is excluded (the parse failure is swallowed, the
fetch does not crash). -/
theorem includeCustomer_iff_either_window (now daysBack : Int) (c : Customer) :
    includeCustomer now daysBack c = includeCustomerSpec now daysBack c := by
  unfold includeCustomer includeCustomerSpec withinWindow
  cases c.created_at <;> cases c.updated_at <;> simp

/-- C7: `should_sync_merchant` fails open — it returns `True` whenever the
`last_sync` cell is falsy or does not parse — and when the cell parses it
returns `True` exactly when the elapsed whole days reach the threshold. -/
theorem shouldSyncMerchant_fail_open (now thresholdDays : Int) (lastSync : TimeField) :
    shouldSyncMerchant now lastSync thresholdDays = true ↔
      (lastSync.time = none ∨
       ∃ t, lastSync.time = some t ∧ thresholdDays ≤ daysBetween now t) := by
  cases lastSync <;> simp [shouldSyncMerchant, TimeField.time]

/-- C9: saving an empty customer list leaves the merchant's worksheet empty —
the previous content is cleared, nothing (not even the header row) is written
back — and the call still reports success. -/
theorem saveCustomerData_empty_clears (now : Int) (prevSheet : List (List String)) :
    saveCustomerData now [] prevSheet = ([], true) := rfl

/-- `save_customer_data` never reports failure in the exception-free model. -/
theorem saveCustomerData_snd (now : Int) (cs : List SyncedCustomer)
    (prev : List (List String)) : (saveCustomerData now cs prev).2 = true := by
  unfold saveCustomerData
  by_cases h : 0 < cs.length <;> simp [h]

/-- C10: the cron trigger accepts a request exactly when its Authorization
header is the literal string `Bearer ` followed by the CRON_TOKEN value; on
any mismatch it answers 401 and leaves the sheet state untouched (no merchant
is synced), and with CRON_TOKEN unset the expected header is the literal
`Bearer None`. -/
theorem cronSync_auth_gate (envOf : AppEnv) (now : Int) (fuel : Nat)
    (cronToken authHeader : Option String) (st : SheetsState) :
    ((cronSync envOf now fuel cronToken authHeader st = (.unauthorized, st)) ↔
      authHeader ≠ some (cronExpected cronToken)) ∧
    (((cronSync envOf now fuel cronToken authHeader st).1.httpStatus = 401) ↔
      authHeader ≠ some (cronExpected cronToken)) ∧
    cronExpected none = "Bearer None" := by
  refine ⟨?_, ?_, rfl⟩ <;>
    by_cases h : authHeader = some (cronExpected cronToken) <;>
      simp [cronSync, h, CronOutcome.httpStatus]

/-- Looking a key up past a prefix that misses it. -/
theorem lookup_append_of_none {β : Type} (l1 l2 : List (String × β)) (k : String)
    (h : l1.lookup k = none) : (l1 ++ l2).lookup k = l2.lookup k := by
  induction l1 with
  | nil => rfl
  | cons hd tl ih =>
    obtain ⟨a, b⟩ := hd
    cases hk : k == a with
    | true =>
      simp only [List.lookup, hk] at h
      exact Option.noConfusion h
    | false =>
      simp only [List.cons_append, List.lookup, hk] at h ⊢
      exact ih h

/-- A key found in a prefix is found in the whole list. -/
theorem lookup_append_of_some {β : Type} (l1 l2 : List (String × β)) (k : String)
    (v : β) (h : l1.lookup k = some v) : (l1 ++ l2).lookup k = some v := by
  induction l1 with
  | nil => simp [List.lookup] at h
  | cons hd tl ih =>
    obtain ⟨a, b⟩ := hd
    cases hk : k == a with
    | true =>
      simp only [List.cons_append, List.lookup, hk] at h ⊢
      exact h
    | false =>
      simp only [List.cons_append, List.lookup, hk] at h ⊢
      exact ih h

/-- An entry already present in the accumulating dict is never overwritten by
the rest of the invoice loop. -/
theorem invLoop_keeps (ids : List String) (cid : String) (l : InvoiceLinkage) :
    ∀ (invs : List Invoice) (acc : List (String × InvoiceLinkage)),
      acc.lookup cid = some l → (invLoop ids invs acc).lookup cid = some l := by
  intro invs
  induction invs with
  | nil => intro acc h; simpa [invLoop] using h
  | cons inv rest ih =>
    intro acc h
    unfold invLoop
    cases hp : inv.primary_recipient_customer_id with
    | none => exact ih acc h
    | some c =>
      by_cases hc : (ids.contains c && ((acc.lookup c).isNone : Bool)) = true
      · simp only [hc, if_pos]
        exact ih _ (lookup_append_of_some acc _ cid l h)
      · simp only [hc, if_neg, Bool.not_eq_true]
        exact ih acc h

/-- Core of C8: the invoice loop stores, for each requested customer id, the
linkage of the first invoice in the list whose primary recipient is that
customer. -/
theorem invLoop_first_match (ids : List String) (cid : String)
    (hmem : ids.contains cid = true) :
    ∀ (invs : List Invoice) (acc : List (String × InvoiceLinkage)),
      acc.lookup cid = none →
      (invLoop ids invs acc).lookup cid =
        (invs.find? (fun inv =>
          inv.primary_recipient_customer_id == some cid)).map buildLinkage := by
  intro invs
  induction invs with
  | nil => intro acc h; simpa [invLoop] using h
  | cons inv rest ih =>
    intro acc hacc
    unfold invLoop
    cases hp : inv.primary_recipient_customer_id with
    | none =>
      rw [List.find?_cons_of_neg _ (by simp [hp])]
      exact ih acc hacc
    | some c =>
      by_cases hc : c = cid
      · subst hc
        rw [List.find?_cons_of_pos _ (by simp [hp])]
        simp only [hmem, hacc, Option.isNone_none, Bool.and_self, if_pos,
          Option.map_some]
        refine invLoop_keeps ids c (buildLinkage inv) rest _ ?_
        rw [lookup_append_of_none acc _ c hacc]
        simp [List.lookup]
      · rw [List.find?_cons_of_neg _ (by simp [hp, hc])]
        by_cases hcnd : (ids.contains c && ((acc.lookup c).isNone : Bool)) = true
        · simp only [hcnd, if_pos]
          refine ih _ ?_
          rw [lookup_append_of_none acc _ cid hacc]
          have hne : (cid == c) = false := by
            simp [Ne.symm hc]
          simp [List.lookup, hne]
        · simp only [hcnd, if_neg, Bool.not_eq_true]
          exact ih acc hacc

/-- C8: for a requested customer id, the dict built by
`fetch_customer_invoices` retains the linkage of the invoice appearing first
in the (already sorted) search result that resolves to that customer; later
invoices for the same customer never overwrite it. -/
theorem fetchCustomerInvoices_first_wins (ids : List String) (invs : List Invoice)
    (cid : String) (hmem : ids.contains cid = true) :
    (fetchCustomerInvoices ids (.ok invs)).lookup cid =
      (invs.find? (fun inv =>
        inv.primary_recipient_customer_id == some cid)).map buildLinkage := by
  have hne : ids.isEmpty = false := by
    cases ids with
    | nil => simp at hmem
    | cons a l => rfl
  unfold fetchCustomerInvoices
  rw [hne]
  simp only [Bool.false_eq_true, if_neg, not_false_eq_true]
  exact invLoop_first_match ids cid hmem invs [] rfl

/-- First invoice for customer A, used by the C8 witness. -/
def invoiceA1 : Invoice :=
  { id := "inv1", primary_recipient_customer_id := some "A"
    payment_requests := [⟨"2025-02-01", true⟩], status := "UNPAID"
    order_total := some "1500", created_at := "2025-01-10", updated_at := "2025-01-11" }

/-- Second invoice for the same customer A, used by the C8 witness. -/
def invoiceA2 : Invoice :=
  { id := "inv2", primary_recipient_customer_id := some "A"
    payment_requests := [], status := "PAID"
    order_total := none, created_at := "2024-12-01", updated_at := "2024-12-02" }

/-- C8 witness: with two invoices resolving to customer A, the first one in
the list is the one retained. -/
theorem fetchCustomerInvoices_first_wins_witness :
    (["A"] : List String).contains "A" = true ∧
    (fetchCustomerInvoices ["A"] (.ok [invoiceA1, invoiceA2])).lookup "A" =
      (([invoiceA1, invoiceA2] : List Invoice).find? (fun inv =>
        inv.primary_recipient_customer_id == some "A")).map buildLinkage :=
  ⟨by decide, fetchCustomerInvoices_first_wins ["A"] [invoiceA1, invoiceA2] "A" (by decide)⟩

/-- The cursor loop over a chained source: with enough fuel it issues exactly
one request per page, accumulates every filtered record of every page, and
stops with the cursorless page. -/
theorem fetchLoop_chain (source : Option String → ReqResult) (keep : Customer → Bool)
    (pages : List CustPage) (cur : Option String)
    (hch : Chains source cur pages) :
    ∀ (fuel : Nat) (acc : List Customer) (reqs : Nat), pages.length ≤ fuel →
      fetchLoopGo source keep fuel cur acc reqs =
        .done (acc ++ (pages.map (fun p => p.customers.filter keep)).flatten)
          (reqs + pages.length) := by
  induction hch with
  | last cur p hsrc hcur =>
    intro fuel acc reqs hf
    match fuel, hf with
    | f + 1, _ =>
      unfold fetchLoopGo
      rw [hsrc]
      simp [hcur]
  | cons cur p ps hsrc hcur hrest ih =>
    intro fuel acc reqs hf
    match fuel, hf with
    | f + 1, hf =>
      unfold fetchLoopGo
      rw [hsrc]
      simp only [hcur, if_pos]
      rw [ih f _ _ (by simpa using Nat.le_of_succ_le_succ hf)]
      congr 1
      · simp [List.append_assoc]
      · simp [List.length_cons]
        omega

/-- The invoice merge does not change how many customers there are. -/
theorem mergeInvoices_length (resp : InvResult) (cs : List Customer) :
    (mergeInvoices resp cs).length = cs.length := by
  by_cases h : cs.isEmpty
  · rw [List.isEmpty_iff] at h
    subst h
    rfl
  · simp [mergeInvoices, h]

/-- C2: over a source answering with three pages of 100, 100 and 40 records —
all of them passing the date filter — with a cursor on pages one and two and
none on page three, `fetch_all_customers` returns exactly 240 records and
issues exactly 3 customer-search requests: it stops after the cursorless
page. -/
theorem fetchAllCustomers_three_pages (p1 p2 p3 : List Customer)
    (fb : Option String → ReqResult) (invR : InvResult)
    (now daysBack : Int) (fuel : Nat)
    (h1 : p1.length = 100) (h2 : p2.length = 100) (h3 : p3.length = 40)
    (hk : ∀ c ∈ p1 ++ p2 ++ p3, includeCustomer now daysBack c = true)
    (hf : 3 ≤ fuel) :
    (fetchAllCustomers ⟨threePageSource p1 p2 p3, fb, invR⟩ now daysBack fuel).1.length = 240 ∧
    (fetchAllCustomers ⟨threePageSource p1 p2 p3, fb, invR⟩ now daysBack fuel).2 = 3 := by
  have hch : Chains (threePageSource p1 p2 p3) none
      [⟨p1, some "c1"⟩, ⟨p2, some "c2"⟩, ⟨p3, none⟩] :=
    .cons _ _ _ rfl rfl (.cons _ _ _ rfl rfl (.last _ _ rfl rfl))
  have hloop := fetchLoop_chain (threePageSource p1 p2 p3)
    (includeCustomer now daysBack) _ none hch fuel [] 0 (by simpa using hf)
  have e1 : p1.filter (includeCustomer now daysBack) = p1 :=
    List.filter_eq_self.mpr (fun c hc => hk c (by simp [hc]))
  have e2 : p2.filter (includeCustomer now daysBack) = p2 :=
    List.filter_eq_self.mpr (fun c hc => hk c (by simp [hc]))
  have e3 : p3.filter (includeCustomer now daysBack) = p3 :=
    List.filter_eq_self.mpr (fun c hc => hk c (by simp [hc]))
  unfold fetchAllCustomers
  rw [hloop]
  simp [mergeInvoices_length, e1, e2, e3, h1, h2, h3]

/-- C2 witness: a concrete three-page source of 100 + 100 + 40 epoch-created
customers, fetched at the epoch with a 365-day window. -/
theorem fetchAllCustomers_three_pages_witness :
    (List.replicate 100 passCust).length = 100 ∧
    (List.replicate 40 passCust).length = 40 ∧
    (∀ c ∈ List.replicate 100 passCust ++ List.replicate 100 passCust ++
        List.replicate 40 passCust, includeCustomer 0 365 c = true) ∧
    3 ≤ 3 ∧
    ((fetchAllCustomers
        ⟨threePageSource (List.replicate 100 passCust) (List.replicate 100 passCust)
            (List.replicate 40 passCust),
          fun _ => .exn, .exn⟩ 0 365 3).1.length = 240 ∧
     (fetchAllCustomers
        ⟨threePageSource (List.replicate 100 passCust) (List.replicate 100 passCust)
            (List.replicate 40 passCust),
          fun _ => .exn, .exn⟩ 0 365 3).2 = 3) := by
  have hpass : includeCustomer 0 365 passCust = true := by decide
  have hall : ∀ c ∈ List.replicate 100 passCust ++ List.replicate 100 passCust ++
      List.replicate 40 passCust, includeCustomer 0 365 c = true := by
    intro c hc
    have : c = passCust := by
      rcases List.mem_append.mp hc with h | h
      · rcases List.mem_append.mp h with h | h <;> exact List.eq_of_mem_replicate h
      · exact List.eq_of_mem_replicate h
    rw [this]
    exact hpass
  exact ⟨by simp, by simp, hall, Nat.le_refl 3,
    fetchAllCustomers_three_pages _ _ _ _ _ 0 365 3 (by simp) (by simp) (by simp)
      hall (Nat.le_refl 3)⟩

/-- C6 (amended): the cursor loop applies no record-count safety bound — over
any chained source, `fetch_all_customers` returns every record that passes
the date filter, from every page down to the cursorless one, issuing one
request per page, however many records accumulate. -/
theorem fetchAllCustomers_no_cap (env : MerchantEnv) (now daysBack : Int)
    (fuel : Nat) (pages : List CustPage)
    (hch : Chains env.pages none pages) (hf : pages.length ≤ fuel) :
    (fetchAllCustomers env now daysBack fuel).1.length =
      ((pages.map (fun p =>
        p.customers.filter (includeCustomer now daysBack))).flatten).length ∧
    (fetchAllCustomers env now daysBack fuel).2 = pages.length := by
  unfold fetchAllCustomers
  rw [fetchLoop_chain env.pages (includeCustomer now daysBack) pages none hch fuel [] 0 hf]
  simp [mergeInvoices_length]

/-- A three-page source of 700 records each: 2100 records in total. -/
def bigEnv : MerchantEnv :=
  ⟨threePageSource (List.replicate 700 passCust) (List.replicate 700 passCust)
      (List.replicate 700 passCust),
    fun _ => .exn, .exn⟩

set_option maxRecDepth 100000 in
/-- C6 counterexample: the fetch keeps following cursors past any 1000-2000
record bound — after two pages it already holds 1400 records, yet it issues
the third request and returns all 2100, which no cap of at most 2000 would
allow. -/
theorem fetchAllCustomers_no_cap_counterexample :
    (fetchAllCustomers bigEnv 0 365 3).1.length = 2100 ∧
    (fetchAllCustomers bigEnv 0 365 3).2 = 3 ∧ ¬ (2100 ≤ 2000) := by
  refine ⟨?_, ?_, by decide⟩ <;> rfl

/-- A single-page environment used by the C6 witness. -/
def smallEnv : MerchantEnv := ⟨onePageSource [passCust], fun _ => .exn, .exn⟩

/-- C6 witness: the no-cap accumulation theorem applied to a concrete
one-page chained source. -/
theorem fetchAllCustomers_no_cap_witness :
    Chains smallEnv.pages none [⟨[passCust], none⟩] ∧
    ([(⟨[passCust], none⟩ : CustPage)].length ≤ 1) ∧
    ((fetchAllCustomers smallEnv 0 365 1).1.length =
        (([(⟨[passCust], none⟩ : CustPage)].map (fun p =>
          p.customers.filter (includeCustomer 0 365))).flatten).length ∧
     (fetchAllCustomers smallEnv 0 365 1).2 =
        [(⟨[passCust], none⟩ : CustPage)].length) :=
  ⟨.last _ _ rfl rfl, by decide,
    fetchAllCustomers_no_cap smallEnv 0 365 1 [⟨[passCust], none⟩]
      (.last _ _ rfl rfl) (by decide)⟩

/-- A failed invoice search yields the empty linkage dict. -/
theorem fetchCustomerInvoices_httpError (ids : List String) (code : Nat) :
    fetchCustomerInvoices ids (.httpError code) = [] := by
  unfold fetchCustomerInvoices
  split <;> rfl

/-- After a failed invoice search the merge attaches no invoice to anyone. -/
theorem mergeInvoices_httpError_latest_none (code : Nat) (cs : List Customer) :
    ∀ sc ∈ mergeInvoices (.httpError code) cs, sc.latest_invoice = none := by
  intro sc hsc
  unfold mergeInvoices at hsc
  by_cases h : cs.isEmpty
  · simp [h] at hsc
  · simp only [h, Bool.false_eq_true, if_neg, not_false_eq_true,
      fetchCustomerInvoices_httpError, List.mem_map] at hsc
    obtain ⟨c, _, rfl⟩ := hsc
    rfl

/-- When the invoice search answers with a non-200 status, every customer
`fetch_all_customers` returns carries no `latest_invoice` key — on the main
path because the merge dict is empty, on the fallback path because that path
never merges. -/
theorem fetchAllCustomers_latest_none (env : MerchantEnv) (now daysBack : Int)
    (fuel : Nat) (code : Nat) (hresp : env.invoiceResp = .httpError code) :
    ∀ sc ∈ (fetchAllCustomers env now daysBack fuel).1, sc.latest_invoice = none := by
  intro sc hsc
  unfold fetchAllCustomers at hsc
  rw [hresp] at hsc
  cases hout : fetchLoopGo env.pages (includeCustomer now daysBack) fuel none [] 0 with
  | done cs reqs =>
    rw [hout] at hsc
    exact mergeInvoices_httpError_latest_none code cs sc hsc
  | toFallback reqs =>
    rw [hout] at hsc
    obtain ⟨c, _, rfl⟩ := List.mem_map.mp hsc
    rfl
  | outOfFuel cs reqs =>
    rw [hout] at hsc
    exact mergeInvoices_httpError_latest_none code cs sc hsc

/-- A persisted row for a customer without a `latest_invoice` key has its
five invoice columns empty. -/
theorem customerRow_drop23 (now : Int) (sc : SyncedCustomer)
    (h : sc.latest_invoice = none) :
    (customerRow now sc).drop 23 = ["", "", "", "", ""] := by
  unfold customerRow
  rw [h]
  rfl

/-- C4: when the invoice search fails with a non-200 (e.g. permission) error
but the tenant has credentials, `sync_merchant_customers` still reports
success (the partial-success outcome): every fetched customer is persisted
with all five invoice-linkage columns empty, and every tokens row of the
merchant gets its `last_sync` stamped. -/
theorem syncMerchant_partial_success (envOf : AppEnv) (now daysBack : Int)
    (fuel : Nat) (mid : String) (st : SheetsState) (code : Nat) (tok : TokenRow)
    (hresp : (envOf mid).invoiceResp = .httpError code)
    (htok : getTokensFromSheets mid st.tokens = some tok) :
    (syncMerchantCustomers envOf now daysBack fuel mid st).1 = true ∧
    (∀ row ∈ ((syncMerchantCustomers envOf now daysBack fuel mid st).2.customerSheets
        mid).drop 1, row.drop 23 = ["", "", "", "", ""]) ∧
    (∀ r ∈ (syncMerchantCustomers envOf now daysBack fuel mid st).2.tokens,
        r.merchant_id == mid → r.last_sync = .parsed (isoTimestamp now) now) := by
  unfold syncMerchantCustomers
  rw [htok]
  simp only [saveCustomerData_snd, if_pos]
  refine ⟨trivial, ?_, ?_⟩
  · intro row hrow
    simp only [beq_self_eq_true, if_pos] at hrow
    unfold saveCustomerData at hrow
    by_cases hcs : 0 < (fetchAllCustomers (envOf mid) now daysBack fuel).1.length
    · simp only [List.length_cons, Nat.lt_add_one_iff, gt_iff_lt] at hrow
      rw [if_pos (by simpa using hcs)] at hrow
      simp only [List.drop_succ_cons, List.drop_zero, List.mem_map] at hrow
      obtain ⟨sc, hsc, rfl⟩ := hrow
      exact customerRow_drop23 now sc
        (fetchAllCustomers_latest_none (envOf mid) now daysBack fuel code hresp sc hsc)
    · rw [if_neg (by simpa using hcs)] at hrow
      simp at hrow
  · intro r hr hmidr
    simp only [updateSyncStatus, List.mem_map] at hr
    obtain ⟨r0, _, rfl⟩ := hr
    by_cases h0 : r0.merchant_id == mid
    · simp [h0]
    · simp [h0] at hmidr

/-- An active tokens row for merchant `M`, used by witnesses. -/
def tokRowM : TokenRow :=
  { merchant_id := "M", access_token := "atokM", refresh_token := "rtokM",
    updated_at := "u", status := "active", merchant_name := "Shop M",
    last_sync := .missing, total_customers := 0 }

/-- A sheet state holding only merchant `M`'s credentials. -/
def stM : SheetsState := ⟨[tokRowM], fun _ => []⟩

/-- An environment whose invoice search answers 403 for every merchant. -/
def envInvoice403 : AppEnv :=
  fun _ => ⟨onePageSource [passCust], fun _ => .exn, .httpError 403⟩

/-- C4 witness: merchant `M` with one fetched customer and a 403 invoice
search still syncs successfully, with empty invoice columns. -/
theorem syncMerchant_partial_success_witness :
    (envInvoice403 "M").invoiceResp = .httpError 403 ∧
    getTokensFromSheets "M" stM.tokens = some tokRowM ∧
    ((syncMerchantCustomers envInvoice403 0 365 1 "M" stM).1 = true ∧
     (∀ row ∈ ((syncMerchantCustomers envInvoice403 0 365 1 "M" stM).2.customerSheets
        "M").drop 1, row.drop 23 = ["", "", "", "", ""]) ∧
     (∀ r ∈ (syncMerchantCustomers envInvoice403 0 365 1 "M" stM).2.tokens,
        r.merchant_id == "M" → r.last_sync = .parsed (isoTimestamp 0) 0)) :=
  ⟨rfl, rfl,
    syncMerchant_partial_success envInvoice403 0 365 1 "M" stM 403 tokRowM rfl rfl⟩

/-- Stamping the sync status changes neither `merchant_id` nor `status` of
any row, so an active credentials row stays findable afterwards. -/
theorem getTokens_updateSyncStatus_isSome (mid : String) (now : Int) (count : Nat)
    (rows : List TokenRow) :
    (getTokensFromSheets mid (updateSyncStatus mid now count rows).1).isSome =
      (getTokensFromSheets mid rows).isSome := by
  unfold getTokensFromSheets updateSyncStatus
  induction rows with
  | nil => rfl
  | cons r rs ih =>
    by_cases hr : r.merchant_id == mid <;>
      by_cases hs : r.status == "active" <;>
        simp [List.find?, hr, hs] <;> simpa using ih

/-- After a successful sync for a credentialed merchant, the merchant's
worksheet holds exactly the full-replace content computed from the fetched
customers (independent of what the worksheet held before), and the
credentials row is still findable. -/
theorem sync_customerSheet_eq (envOf : AppEnv) (now daysBack : Int) (fuel : Nat)
    (mid : String) (st : SheetsState) (tok : TokenRow)
    (htok : getTokensFromSheets mid st.tokens = some tok) :
    (syncMerchantCustomers envOf now daysBack fuel mid st).2.customerSheets mid =
      (saveCustomerData now (fetchAllCustomers (envOf mid) now daysBack fuel).1 []).1 ∧
    (getTokensFromSheets mid
        (syncMerchantCustomers envOf now daysBack fuel mid st).2.tokens).isSome = true := by
  unfold syncMerchantCustomers
  rw [htok]
  simp only [saveCustomerData_snd, if_pos]
  constructor
  · simp only [beq_self_eq_true, if_pos]
    rfl
  · rw [getTokens_updateSyncStatus_isSome]
    rw [htok]
    rfl

/-- C5 (amended): for a fixed clock reading, running
`sync_merchant_customers` twice in succession with unchanged external data
persists the same customer worksheet content both times — the full-replace
write is deterministic in the external data and the clock; only the
`sync_date` column depends on the clock. -/
theorem syncMerchant_fixed_clock_idempotent (envOf : AppEnv) (now daysBack : Int)
    (fuel : Nat) (mid : String) (st : SheetsState) (tok : TokenRow)
    (htok : getTokensFromSheets mid st.tokens = some tok) :
    ((syncMerchantCustomers envOf now daysBack fuel mid
        ((syncMerchantCustomers envOf now daysBack fuel mid st).2)).2).customerSheets mid =
      ((syncMerchantCustomers envOf now daysBack fuel mid st).2).customerSheets mid := by
  have h1 := sync_customerSheet_eq envOf now daysBack fuel mid st tok htok
  obtain ⟨tok2, htok2⟩ := Option.isSome_iff_exists.mp h1.2
  have h2 := sync_customerSheet_eq envOf now daysBack fuel mid _ tok2 htok2
  rw [h1.1, h2.1]

/-- C5 witness: merchant `M` synced twice at the same clock reading persists
the same worksheet. -/
theorem syncMerchant_fixed_clock_idempotent_witness :
    getTokensFromSheets "M" stM.tokens = some tokRowM ∧
    ((syncMerchantCustomers envInvoice403 0 365 1 "M"
        ((syncMerchantCustomers envInvoice403 0 365 1 "M" stM).2)).2).customerSheets "M" =
      ((syncMerchantCustomers envInvoice403 0 365 1 "M" stM).2).customerSheets "M" :=
  ⟨rfl, syncMerchant_fixed_clock_idempotent envInvoice403 0 365 1 "M" stM tokRowM rfl⟩

/-- C5 counterexample: two immediately successive syncs run at clock readings
one second apart persist different worksheet contents — every data row embeds
`sync_date = datetime.now().isoformat()`, which differs between the runs even
though the external data is unchanged. -/
theorem syncMerchant_idempotent_counterexample :
    ¬ (((syncMerchantCustomers envInvoice403 1 365 1 "M"
          ((syncMerchantCustomers envInvoice403 0 365 1 "M" stM).2)).2).customerSheets "M" =
        ((syncMerchantCustomers envInvoice403 0 365 1 "M" stM).2).customerSheets "M") := by
  decide

end SquareSync
